import Mathlib

/-!
Verification of the clamavmirror update engine (src/clamavmirror/__init__.py)
against its natural-language specification.

The Python program is shallowly embedded: the filesystem is a map from path
strings to file data, every fallible operation returns `Except`, external
collaborators (the HTTP client, the DNS resolver, the `sigtool` verifier, the
`pwd`/`grp` databases and `hashlib.md5`) are passed in as explicit parameters
describing their observable behaviour, and the per-item bodies of the two
queue-worker loops are embedded as functions over one work item.
-/

namespace ClamavMirror

/-- Metadata of one on-disk file: its byte content, its permission mode and
the owner (uid, gid) when one has been applied via chown. -/
structure FileData where
  content : String
  mode : Nat
  owner : Option (Nat × Nat)
deriving DecidableEq

/-- The filesystem: a map from absolute path to file data (`none` = absent).
Both the working directory and the mirror directory live in this one map,
exactly as they share one filesystem in the program. -/
def FS : Type := String → Option FileData

/-- Write (create or overwrite) a file, as `open(name, 'wb')` + `write` do. -/
def setFile (fs : FS) (p : String) (fd : FileData) : FS :=
  fun q => if q = p then some fd else fs q

/-- `os.path.join` as used throughout the source: directory, separator, leaf. -/
def pathJoin (d f : String) : String := d ++ "/" ++ f

/-- The parsed command-line options consumed by the update engine
(`main`, lines 379-422; `user`/`group` are `none` when falsy). -/
structure Opts where
  hostname : String
  txtrecord : String
  workdir : String
  mirrordir : String
  user : Option String
  group : Option String
deriving DecidableEq

/-- Environment for the best-effort ownership step of `deploy_signature`:
`getpwnam`/`getgrnam` return `none` where the Python calls raise `KeyError`
(unknown user/group), and `chownPermitted = false` models `os.chown`
raising `OSError` (e.g. not running as root). -/
structure OwnerEnv where
  getpwnam : String → Option Nat
  getgrnam : String → Option Nat
  chownPermitted : Bool

/-- `shutil.move(source, dest)` (line 138): the destination receives the
source's data and the source path ceases to exist; moving a missing source
raises. -/
def moveFile (fs : FS) (src dst : String) : Except String FS :=
  match fs src with
  | none => Except.error "FileNotFoundError: move source missing"
  | some fd =>
      Except.ok (fun p => if p = dst then some fd else if p = src then none else fs p)

/-- `os.chmod(dest, mode)` (line 139). -/
def chmodFile (fs : FS) (p : String) (mode : Nat) : Except String FS :=
  match fs p with
  | none => Except.error "FileNotFoundError: chmod target missing"
  | some fd => Except.ok (setFile fs p { fd with mode := mode })

/-- `os.chown(dest, uid, gid)` (line 144); `Except.error ()` is `OSError`. -/
def os_chown (env : OwnerEnv) (uid gid : Nat) (fs : FS) (p : String) :
    Except Unit FS :=
  if env.chownPermitted then
    match fs p with
    | none => Except.error ()
    | some fd => Except.ok (setFile fs p { fd with owner := some (uid, gid) })
  else Except.error ()

/-- `deploy_signature(source, dest, user, group)` (lines 136-146): move the
file, chmod it to `0o644`, and when both `user` and `group` are truthy try to
resolve and apply ownership, swallowing `KeyError` and `OSError`. -/
def deploy_signature (env : OwnerEnv) (fs : FS) (source dest : String)
    (user group : Option String) : Except String FS :=
  match moveFile fs source dest with
  | Except.error e => Except.error e
  | Except.ok fs1 =>
    match chmodFile fs1 dest 0o644 with
    | Except.error e => Except.error e
    | Except.ok fs2 =>
      match user, group with
      | some u, some g =>
        match env.getpwnam u, env.getgrnam g with
        | some uid, some gid =>
          match os_chown env uid gid fs2 dest with
          | Except.ok fs3 => Except.ok fs3
          | Except.error _ => Except.ok fs2
        | _, _ => Except.ok fs2
      | _, _ => Except.ok fs2

/-- Observable outcome of the single `manager.request('GET', url)` call in
`download_sig`: either an HTTP response with a status and body, or a
transport-level exception raised by the client. -/
inductive HttpResult where
  | response (status : Nat) (data : String)
  | exn (msg : String)
deriving DecidableEq

/-- The uncaught error that `download_sig` raises on the transport-exception
path: the `except` clause only logs, then `data = req.data` dereferences the
never-assigned local `req`. -/
def unboundLocalMsg : String :=
  "UnboundLocalError: local variable req referenced before assignment"

/-- `download_sig(opts, sig, version)` (lines 204-231) for one fetch.
`version = some v` selects the `<sig>.cvd` path and filename, `none` the
`<sig>.cdiff` ones. On a 200 response the body is written to the working
directory and `downloaded = os.path.exists(filename)`; on any other status
the function returns `(False, status)`; a transport exception is logged and
then `req.data` raises `UnboundLocalError`, which propagates to the caller.
The mode of the freshly written scratch file is environment-determined
(umask); `0o666` stands for the default `open` creation mode. -/
def download_sig (opts : Opts) (sig : String) (version : Option Nat)
    (http : HttpResult) (fs : FS) : Except String (FS × Bool × Option Nat) :=
  let filename :=
    match version with
    | some _ => pathJoin opts.workdir (sig ++ ".cvd")
    | none => pathJoin opts.workdir (sig ++ ".cdiff")
  match http with
  | HttpResult.exn _ => Except.error unboundLocalMsg
  | HttpResult.response status data =>
    if status = 200 then
      let fs' := setFile fs filename { content := data, mode := 0o666, owner := none }
      Except.ok (fs', (fs' filename).isSome, some status)
    else
      Except.ok (fs, false, some status)

/-- `copy_sig(sig, opts, isdiff)` (lines 254-264): build the working-directory
source path and mirror-directory destination path with extension `.cdiff` or
`.cvd` according to `isdiff`, then hand them to `deploy_signature` together
with the configured user and group. -/
def copy_sig (env : OwnerEnv) (sig : String) (opts : Opts) (isdiff : Bool)
    (fs : FS) : Except String FS :=
  let ext := if isdiff then ".cdiff" else ".cvd"
  let sourcefile := pathJoin opts.workdir (sig ++ ext)
  let destfile := pathJoin opts.mirrordir (sig ++ ext)
  deploy_signature env fs sourcefile destfile opts.user opts.group

/-- The update-required test of `update_sig` (line 274):
`localver is None or (localver and int(localver) < int(remotever))`.
A present version string is always truthy, so the falsy middle case cannot
fire; `none` means `get_local_version` found no local bundle. -/
def sigNeedsUpdate (localver : Option Nat) (remotever : Nat) : Bool :=
  match localver with
  | none => true
  | some l => decide (l < remotever)

/-- Outcome of one full-bundle work item as logged by `update_sig`. -/
inductive SigOutcome where
  | deployed
  | failed (code : Option Nat)
  | upToDate
deriving DecidableEq

/-- The body of the `update_sig` worker loop (lines 267-290) for one queued
item `(options, sign, vers)`. `localver` is what `get_local_version` (the
external `sigtool` inspection of the mirror directory's bundle) reports and
`remotever = vers[sign]`. If an update is required the bundle is fetched
via `download_sig` and, on success, deployed via `copy_sig` — the source
performs no verification step in between (`check_download` is never called).
A 404 or other failure only logs; `upToDate` is the no-update branch. -/
def update_sig_item (env : OwnerEnv) (opts : Opts) (sign : String)
    (localver : Option Nat) (remotever : Nat) (http : HttpResult) (fs : FS) :
    Except String (FS × SigOutcome) :=
  if sigNeedsUpdate localver remotever then
    match download_sig opts sign (some remotever) http fs with
    | Except.error e => Except.error e
    | Except.ok (fs1, true, _) =>
      match copy_sig env sign opts false fs1 with
      | Except.error e => Except.error e
      | Except.ok fs2 => Except.ok (fs2, SigOutcome.deployed)
    | Except.ok (fs1, false, code) => Except.ok (fs1, SigOutcome.failed code)
  else Except.ok (fs, SigOutcome.upToDate)

/-- `check_download(obj, version, workdir, signame)` (lines 191-201): when an
expected version is present, raise `ValueError` unless `verify_sigfile`
succeeds on the downloaded bundle and its `sigtool`-inspected version equals
the expected one. `verifyOk` is `verify_sigfile`'s result and
`inspectedVersion` is `get_local_version(workdir, signame)`. This function is
defined in the source but never invoked by any caller. -/
def check_download (version : Option Nat) (verifyOk : Bool)
    (inspectedVersion : Option Nat) : Except String Unit :=
  match version with
  | some v =>
    if ¬verifyOk ∨ some v ≠ inspectedVersion then
      Except.error "ValueError: Failed to verify signature"
    else Except.ok ()
  | none => Except.ok ()

/-- What one iteration of the `update_diff` loop logs for its download. -/
inductive DiffEvent where
  | deployed
  | notFound
  | failed (code : Option Nat)
deriving DecidableEq

/-- The loop body of `update_diff` (lines 293-305) over the remaining
iteration indices of `range(1, 6)`. Each iteration performs one
`download_sig` call; a success is immediately deployed with `copy_sig`; a
404 logs not-found; other failures log the code. The source has no `break`,
so the loop never stops early. `http i` is the HTTP outcome of iteration
`i`'s request. -/
def update_diff_loop (env : OwnerEnv) (opts : Opts) (sig : String)
    (http : Nat → HttpResult) (fs : FS) :
    List Nat → Except String (FS × List DiffEvent)
  | [] => Except.ok (fs, [])
  | i :: rest =>
    match download_sig opts sig none (http i) fs with
    | Except.error e => Except.error e
    | Except.ok (fs1, true, _) =>
      match copy_sig env sig opts true fs1 with
      | Except.error e => Except.error e
      | Except.ok fs2 =>
        match update_diff_loop env opts sig http fs2 rest with
        | Except.error e => Except.error e
        | Except.ok (fs3, evs) => Except.ok (fs3, DiffEvent.deployed :: evs)
    | Except.ok (fs1, false, code) =>
      match update_diff_loop env opts sig http fs1 rest with
      | Except.error e => Except.error e
      | Except.ok (fs3, evs) =>
        Except.ok (fs3,
          (if code = some 404 then DiffEvent.notFound else DiffEvent.failed code) :: evs)

/-- `update_diff(opts, sig)` (lines 293-305): `for _ in range(1, 6)` runs the
loop body for the five indices 1..5. The returned event list has one entry
per download attempt made. -/
def update_diff (env : OwnerEnv) (opts : Opts) (sig : String)
    (http : Nat → HttpResult) (fs : FS) : Except String (FS × List DiffEvent) :=
  update_diff_loop env opts sig http fs (List.range' 1 5)

/-- The mirror-directory path of one cdiff step:
`os.path.join(options.mirrordir, '%s-%d.cdiff' % (signature_type, num))`
(lines 326-327). -/
def diffPath (opts : Opts) (sigtype : String) (num : Nat) : String :=
  pathJoin opts.mirrordir (sigtype ++ "-" ++ Nat.repr num ++ ".cdiff")

/-- The loop body of the `download_diffs` worker (lines 321-330) over the
remaining step numbers. A step whose cdiff already exists in the mirror
directory is skipped (`os.path.exists`); otherwise `update_diff` runs for
it. Returns the final filesystem and the list of step numbers for which a
download was attempted, in order. `http num i` is the HTTP outcome of
iteration `i` of step `num`'s `update_diff`. -/
def download_diffs_loop (env : OwnerEnv) (opts : Opts) (sigtype : String)
    (http : Nat → Nat → HttpResult) (fs : FS) :
    List Nat → Except String (FS × List Nat)
  | [] => Except.ok (fs, [])
  | num :: rest =>
    let sig_diff := sigtype ++ "-" ++ Nat.repr num
    if (fs (diffPath opts sigtype num)).isSome then
      download_diffs_loop env opts sigtype http fs rest
    else
      match update_diff env opts sig_diff (http num) fs with
      | Except.error e => Except.error e
      | Except.ok (fs1, _) =>
        match download_diffs_loop env opts sigtype http fs1 rest with
        | Except.error e => Except.error e
        | Except.ok (fs2, atts) => Except.ok (fs2, num :: atts)

/-- The body of the `download_diffs` worker (lines 321-330) for one queued
item `(options, signature_type, localver, remotever)`: iterate over
`range(int(localver), int(remotever) + 1)`, i.e. the step numbers from
`localver` through `remotever` inclusive. -/
def download_diffs_item (env : OwnerEnv) (opts : Opts) (sigtype : String)
    (http : Nat → Nat → HttpResult) (localver remotever : Nat) (fs : FS) :
    Except String (FS × List Nat) :=
  download_diffs_loop env opts sigtype http fs
    (List.range' localver (remotever + 1 - localver))

/-- Observable behaviour of one `dns.resolver.query(hostname, 'TXT')` call:
a successful response carrying the (possibly empty) list of decoded answer
strings, an `NXDOMAIN` exception, or any other resolver exception
(`Timeout`, `NoAnswer`, ...). -/
inductive DnsOutcome where
  | answers (strs : List String)
  | nxdomain
  | failure (msg : String)
deriving DecidableEq

/-- `get_txt_record(hostname)` (lines 155-161): return the first string of
the answer set; `IndexError` (empty answer set) and `NXDOMAIN` are caught
and yield the empty string; every other resolver exception propagates. -/
def get_txt_record : DnsOutcome → Except String String
  | DnsOutcome.answers strs =>
    match strs with
    | [] => Except.ok ""
    | s :: _ => Except.ok s
  | DnsOutcome.nxdomain => Except.ok ""
  | DnsOutcome.failure e => Except.error e

/-- Events observable from a run of `work`: TXT queries, `time.sleep`
pauses, `sys.exit` calls and worker-thread starts. -/
inductive RunEvent where
  | queryTxt (passno : Nat)
  | sleepSecs (n : Nat)
  | exitProc (code : Nat)
  | startDiffWorker (idx : Nat)
  | startSigWorker (idx : Nat)
deriving DecidableEq

/-- Outcome of `get_record`: a returned record, a `sys.exit(code)`, or an
exception propagating out of `get_txt_record`. -/
inductive RecOutcome where
  | found (record : String)
  | exited (code : Nat)
  | raised (msg : String)
deriving DecidableEq

/-- The `sys.exit(3)` code of `get_record` (line 250). -/
def resolutionFailExitCode : Nat := 3

/-- The `sys.exit(0)` code at the end of `work` (line 376). -/
def successExitCode : Nat := 0

/-- The `sys.exit(254)` code of `main`'s lock-contention path (line 430). -/
def lockContentionExitCode : Nat := 254

/-- The `for passno in range(1, 5)` loop of `get_record` (lines 237-247)
over the remaining pass numbers: each pass queries the TXT record, breaks
with the record when it is non-empty, and otherwise sleeps 5 seconds; when
the passes are exhausted with an empty record, `sys.exit(3)` follows
(lines 248-250). `q p` is the resolver's behaviour on pass `p`. -/
def get_record_loop (q : Nat → DnsOutcome) :
    List Nat → List RunEvent × RecOutcome
  | [] => ([RunEvent.exitProc 3], RecOutcome.exited 3)
  | p :: rest =>
    match get_txt_record (q p) with
    | Except.error e => ([RunEvent.queryTxt p], RecOutcome.raised e)
    | Except.ok r =>
      if r = "" then
        let next := get_record_loop q rest
        (RunEvent.queryTxt p :: RunEvent.sleepSecs 5 :: next.1, next.2)
      else ([RunEvent.queryTxt p], RecOutcome.found r)

/-- `get_record(opts)` (lines 234-251): up to four passes, numbered 1..4. -/
def get_record (q : Nat → DnsOutcome) : List RunEvent × RecOutcome :=
  get_record_loop q (List.range' 1 4)

/-- Helper for `splitColon`: walk the characters accumulating the current
field (in reverse), emitting a field at every `':'`. -/
def splitColonAux : List Char → List Char → List String
  | [], acc => [String.mk acc.reverse]
  | c :: cs, acc =>
    if c = ':' then String.mk acc.reverse :: splitColonAux cs []
    else splitColonAux cs (c :: acc)

/-- Python's `record.split(':')` (line 337): split on every colon, keeping
empty fields; the empty string yields the single-field list `[""]`. -/
def splitColon (s : String) : List String := splitColonAux s.data []

/-- The tuple unpacking of `work` (line 337), lifted over the split fields:
`_, mainv, dailyv, _, _, _, safebrowsingv, bytecodev = record.split(':')`
succeeds exactly on an 8-element list and keeps positions 1, 2, 6 and 7
(0-indexed); any other arity raises `ValueError`. -/
def parse_fields : List String → Option (String × String × String × String)
  | [_, mainv, dailyv, _, _, _, safebrowsingv, bytecodev] =>
    some (mainv, dailyv, safebrowsingv, bytecodev)
  | _ => none

/-- Parsing of the retrieved record in `work` (line 337): split on `:` and
unpack into the main/daily/safebrowsing/bytecode versions. -/
def parse_record (record : String) :
    Option (String × String × String × String) :=
  parse_fields (splitColon record)

/-- Number of diff-download worker threads started by `work` (line 342). -/
def dqueueWorkers : Nat := 3

/-- Number of signature-download worker threads started by `work`
(line 350). -/
def mqueueWorkers : Nat := 4

/-- Outcome of the opening phase of `work`. -/
inductive WorkOutcome where
  | exited (code : Nat)
  | raised (msg : String)
  | workersStarted (versions : String × String × String × String)
deriving DecidableEq

/-- The opening phase of `work(options)` (lines 333-355), which is all the
run performs before any queue item is processed: resolve the record with
`get_record`, unpack it into the four stream versions (raising `ValueError`
on a wrong field count), then start the 3 diff-download workers and the 4
signature-download workers. A `sys.exit` or an uncaught exception inside
`get_record`, or the unpack `ValueError`, ends the run before any worker
is started. -/
def work_start (q : Nat → DnsOutcome) : List RunEvent × WorkOutcome :=
  match get_record q with
  | (evs, RecOutcome.exited c) => (evs, WorkOutcome.exited c)
  | (evs, RecOutcome.raised e) => (evs, WorkOutcome.raised e)
  | (evs, RecOutcome.found record) =>
    match parse_record record with
    | none => (evs, WorkOutcome.raised "ValueError: unpack mismatch")
    | some v =>
      (evs
        ++ (List.range dqueueWorkers).map (fun i => RunEvent.startDiffWorker (i + 1))
        ++ (List.range mqueueWorkers).map (fun i => RunEvent.startSigWorker (i + 1)),
       WorkOutcome.workersStarted v)

/-- Number of TXT queries in an event trace. -/
def countQueries (evs : List RunEvent) : Nat :=
  evs.countP (fun e => match e with | RunEvent.queryTxt _ => true | _ => false)

/-- `get_file_md5(filename)` (lines 98-113), with `hashlib.md5` supplied as
the function `md5` and the file given by its optional content: an absent
file yields the empty string (not the hash of empty content); a present
file yields the hash of its content. -/
def get_file_md5 (md5 : String → String) (file : Option String) : String :=
  match file with
  | none => ""
  | some content => md5 content

/-- `get_md5(string)` (lines 116-123): hash of a string. -/
def get_md5 (md5 : String → String) (s : String) : String := md5 s

/-- Result of `create_dns_file`: the marker file's content afterwards, and
whether `create_file` was invoked (a write happened). -/
structure DnsFileResult where
  file : Option String
  wrote : Bool
deriving DecidableEq

/-- `create_dns_file(opts, record)` (lines 308-318): compare the MD5 of the
existing `dns.txt` (the empty string when absent) with the MD5 of the fresh
record; rewrite the marker only when they differ. -/
def create_dns_file (md5 : String → String) (file : Option String)
    (record : String) : DnsFileResult :=
  let localmd5 := get_file_md5 md5 file
  let remotemd5 := get_md5 md5 record
  if localmd5 ≠ remotemd5 then { file := some record, wrote := true }
  else { file := file, wrote := false }

/-! Concrete fixtures used by closed theorems and witnesses. -/

/-- Options fixture: working directory `w`, mirror directory `m`, the
default hostnames and the default `nginx` ownership of `main`. -/
def optsW : Opts :=
  { hostname := "db.de.clamav.net", txtrecord := "current.cvd.clamav.net",
    workdir := "w", mirrordir := "m", user := some "nginx", group := some "nginx" }

/-- Ownership environment in which user and group resolution fails
(`KeyError` in `pwd.getpwnam` / `grp.getgrnam`). -/
def envW : OwnerEnv :=
  { getpwnam := fun _ => none, getgrnam := fun _ => none, chownPermitted := false }

/-- An empty filesystem. -/
def fsEmpty : FS := fun _ => none

/-- A mirror holding a valid version-100 daily bundle and nothing else. -/
def fs0C1 : FS := fun p =>
  if p = "m/daily.cvd" then
    some { content := "valid-bundle-100", mode := 0o644, owner := none }
  else none

/-- A mirror holding the cdiff for daily step 6 and nothing else. -/
def fsDiffW : FS := fun p =>
  if p = "m/daily-6.cdiff" then
    some { content := "x", mode := 0o644, owner := none }
  else none

/-! Helper lemmas shared by the claim theorems. -/

/-- `download_sig` on any non-200 response returns failure paired with that
status and leaves the filesystem untouched. -/
theorem download_sig_ne200 (opts : Opts) (sig : String) (version : Option Nat)
    (s : Nat) (d : String) (fs : FS) (h : s ≠ 200) :
    download_sig opts sig version (HttpResult.response s d) fs =
      Except.ok (fs, false, some s) := by
  unfold download_sig
  simp [h]

/-- `download_sig` on a transport exception raises instead of returning. -/
theorem download_sig_exn (opts : Opts) (sig : String) (version : Option Nat)
    (m : String) (fs : FS) :
    download_sig opts sig version (HttpResult.exn m) fs =
      Except.error unboundLocalMsg := rfl

/-- `parse_fields` succeeds exactly on lists of eight fields. -/
theorem parse_fields_isSome (l : List String) :
    (parse_fields l).isSome ↔ l.length = 8 := by
  rcases l with _ | ⟨a, _ | ⟨b, _ | ⟨c, _ | ⟨d, _ | ⟨e, _ | ⟨f, _ | ⟨g, _ | ⟨h, _ | ⟨i, t⟩⟩⟩⟩⟩⟩⟩⟩⟩ <;>
    simp [parse_fields]

/-- The retry loop of `get_record` issues at most one TXT query per
remaining pass. -/
theorem countQueries_get_record_loop (q : Nat → DnsOutcome) (l : List Nat) :
    countQueries (get_record_loop q l).1 ≤ l.length := by
  induction l with
  | nil => simp [get_record_loop, countQueries]
  | cons p rest ih =>
    unfold get_record_loop
    cases hq : get_txt_record (q p) with
    | error e => simp [countQueries, List.countP_cons]
    | ok r =>
      by_cases hr : r = ""
      · simp only [hr, if_pos]
        simp only [countQueries, List.countP_cons] at ih ⊢
        simp
        omega
      · simp [hr, countQueries, List.countP_cons]

/-! Decimal-numeral facts, used to show that distinct diff steps have
distinct file names: `Nat.repr` renders only digit characters (never `'-'`)
and is injective. -/

/-- Numeric value of a decimal digit character (proof helper). -/
def chVal (c : Char) : Nat := c.toNat - 48

/-- Left fold reading a decimal digit string onto an accumulator (proof
helper). -/
def valOf (l : List Char) (acc : Nat) : Nat :=
  l.foldl (fun a c => a * 10 + chVal c) acc

/-- `chVal` inverts `Nat.digitChar` on decimal digits. -/
theorem chVal_digitChar (k : Nat) (hk : k < 10) : chVal (Nat.digitChar k) = k := by
  interval_cases k <;> decide

/-- Decimal digit characters are never the dash. -/
theorem digitChar_ne_dash (k : Nat) (hk : k < 10) : Nat.digitChar k ≠ '-' := by
  interval_cases k <;> decide

/-- `Nat.toDigitsCore` in base 10 emits no dash. -/
theorem toDigitsCore_ne_dash :
    ∀ (fuel n : Nat) (ds : List Char), (∀ c ∈ ds, c ≠ '-') →
      ∀ c ∈ Nat.toDigitsCore 10 fuel n ds, c ≠ '-' := by
  intro fuel
  induction fuel with
  | zero => intro n ds hds c hc; exact hds c hc
  | succ fuel ih =>
    intro n ds hds c hc
    unfold Nat.toDigitsCore at hc
    have hd : ∀ x ∈ Nat.digitChar (n % 10) :: ds, x ≠ '-' := by
      intro x hx
      rcases List.mem_cons.mp hx with rfl | hx
      · exact digitChar_ne_dash (n % 10) (Nat.mod_lt n (by norm_num))
      · exact hds x hx
    by_cases hq : n / 10 = 0
    · rw [if_pos hq] at hc
      exact hd c hc
    · rw [if_neg hq] at hc
      exact ih (n / 10) (Nat.digitChar (n % 10) :: ds) hd c hc

/-- The decimal rendering of a natural number contains no dash. -/
theorem repr_ne_dash (n : Nat) : ∀ c ∈ (Nat.repr n).data, c ≠ '-' := by
  intro c hc
  have hdata : (Nat.repr n).data = Nat.toDigitsCore 10 (n + 1) n [] := rfl
  rw [hdata] at hc
  exact toDigitsCore_ne_dash (n + 1) n [] (by intro x hx; cases hx) c hc

/-- Reading back the digits emitted by `Nat.toDigitsCore` recovers the
number. -/
theorem valOf_toDigitsCore :
    ∀ (fuel n : Nat) (ds : List Char) (acc : Nat), n < fuel →
      ∃ k, 0 < k ∧ n < 10 ^ k ∧
        valOf (Nat.toDigitsCore 10 fuel n ds) acc = valOf ds (acc * 10 ^ k + n) := by
  intro fuel
  induction fuel with
  | zero => intro n ds acc h; omega
  | succ fuel ih =>
    intro n ds acc h
    unfold Nat.toDigitsCore
    by_cases hq : n / 10 = 0
    · rw [if_pos hq]
      refine ⟨1, by norm_num, by omega, ?_⟩
      have hval : valOf (Nat.digitChar (n % 10) :: ds) acc =
          valOf ds (acc * 10 + chVal (Nat.digitChar (n % 10))) := rfl
      rw [hval, chVal_digitChar (n % 10) (Nat.mod_lt n (by norm_num))]
      have hn : n % 10 = n := by omega
      rw [hn]
      norm_num
    · rw [if_neg hq]
      obtain ⟨k, hk0, hkb, hkv⟩ := ih (n / 10) (Nat.digitChar (n % 10) :: ds) acc (by omega)
      refine ⟨k + 1, by omega, ?_, ?_⟩
      · have h10 : (10 : Nat) ^ (k + 1) = 10 * 10 ^ k := by ring
        omega
      · rw [hkv]
        have hval : valOf (Nat.digitChar (n % 10) :: ds) (acc * 10 ^ k + n / 10) =
            valOf ds ((acc * 10 ^ k + n / 10) * 10 + chVal (Nat.digitChar (n % 10))) := rfl
        rw [hval, chVal_digitChar (n % 10) (Nat.mod_lt n (by omega))]
        have halg : (acc * 10 ^ k + n / 10) * 10 + n % 10 =
            acc * 10 ^ (k + 1) + (10 * (n / 10) + n % 10) := by ring
        rw [halg, Nat.div_add_mod]

/-- Decimal rendering is injective. -/
theorem toDigits_inj (n m : Nat) (h : Nat.toDigits 10 n = Nat.toDigits 10 m) :
    n = m := by
  obtain ⟨k1, _, _, h1⟩ := valOf_toDigitsCore (n + 1) n [] 0 (by omega)
  obtain ⟨k2, _, _, h2⟩ := valOf_toDigitsCore (m + 1) m [] 0 (by omega)
  have e1 : valOf (Nat.toDigits 10 n) 0 = n := by
    have hv : valOf [] (0 * 10 ^ k1 + n) = n := by simp [valOf]
    rw [show Nat.toDigits 10 n = Nat.toDigitsCore 10 (n + 1) n [] from rfl, h1, hv]
  have e2 : valOf (Nat.toDigits 10 m) 0 = m := by
    have hv : valOf [] (0 * 10 ^ k2 + m) = m := by simp [valOf]
    rw [show Nat.toDigits 10 m = Nat.toDigitsCore 10 (m + 1) m [] from rfl, h2, hv]
  rw [← e1, ← e2, h]

/-- Two dash-free prefixes followed by a dash coincide. -/
theorem nodash_prefix :
    ∀ (P Q x y : List Char), (∀ c ∈ P, c ≠ '-') → (∀ c ∈ Q, c ≠ '-') →
      P ++ '-' :: x = Q ++ '-' :: y → P = Q := by
  intro P
  induction P with
  | nil =>
    intro Q x y _ hQ h
    cases Q with
    | nil => rfl
    | cons q Q' =>
      rw [List.nil_append, List.cons_append] at h
      injection h with h1 h2
      exact absurd h1.symm (hQ q (List.mem_cons_self _ _))
  | cons p P' ih =>
    intro Q x y hP hQ h
    cases Q with
    | nil =>
      rw [List.nil_append, List.cons_append] at h
      injection h with h1 h2
      exact absurd h1 (hP p (List.mem_cons_self _ _))
    | cons q Q' =>
      rw [List.cons_append, List.cons_append] at h
      injection h with h1 h2
      rw [h1]
      rw [ih Q' x y (fun c hc => hP c (List.mem_cons_of_mem _ hc))
        (fun c hc => hQ c (List.mem_cons_of_mem _ hc)) h2]

/-- Dash-delimited digit blocks in the middle of otherwise equal lists
coincide. -/
theorem middle_digits_eq (A B x P Q : List Char)
    (hP : ∀ c ∈ P, c ≠ '-') (hQ : ∀ c ∈ Q, c ≠ '-')
    (h : A ++ '-' :: (P ++ x) = B ++ '-' :: (Q ++ x)) : P = Q := by
  have hr := congrArg List.reverse h
  simp only [List.reverse_append, List.reverse_cons, List.append_assoc] at hr
  have hcan := List.append_cancel_left hr
  have hrev := nodash_prefix P.reverse Q.reverse A.reverse B.reverse
    (fun c hc => hP c (List.mem_reverse.mp hc))
    (fun c hc => hQ c (List.mem_reverse.mp hc)) hcan
  exact List.reverse_inj.mp hrev

/-- Distinct step numbers give distinct cdiff file paths, whatever the two
directories are: the step number is the dash-delimited digit block of the
name and decimal rendering is injective. -/
theorem diff_name_path_inj (d1 d2 t : String) (n m : Nat) (hnm : n ≠ m) :
    pathJoin d1 (t ++ "-" ++ Nat.repr n ++ ".cdiff") ≠
      pathJoin d2 (t ++ "-" ++ Nat.repr m ++ ".cdiff") := by
  intro h
  apply hnm
  apply toDigits_inj
  have hd := congrArg String.data h
  simp only [pathJoin, String.data_append, List.append_assoc] at hd
  simp only [List.singleton_append, ← List.append_assoc] at hd
  have hmid := middle_digits_eq (d1.data ++ ['/'] ++ t.data)
    (d2.data ++ ['/'] ++ t.data) (['.', 'c', 'd', 'i', 'f', 'f'])
    (Nat.repr n).data (Nat.repr m).data
    (repr_ne_dash n) (repr_ne_dash m) ?_
  · exact hmid
  · simpa [List.append_assoc] using hd

/-! Frame lemmas: each filesystem operation leaves every path it does not
name untouched. -/

/-- `setFile` leaves other paths untouched. -/
theorem setFile_frame (fs : FS) (q : String) (fd : FileData) (p : String)
    (h : p ≠ q) : setFile fs q fd p = fs p := by
  simp [setFile, h]

/-- `moveFile` leaves paths other than source and destination untouched. -/
theorem moveFile_frame (fs : FS) (src dst : String) (fs1 : FS)
    (h : moveFile fs src dst = Except.ok fs1) (p : String)
    (hps : p ≠ src) (hpd : p ≠ dst) : fs1 p = fs p := by
  unfold moveFile at h
  split at h
  · cases h
  · injection h with h1
    rw [← h1]
    simp [hps, hpd]

/-- `chmodFile` leaves other paths untouched. -/
theorem chmodFile_frame (fs : FS) (q : String) (mode : Nat) (fs1 : FS)
    (h : chmodFile fs q mode = Except.ok fs1) (p : String) (hp : p ≠ q) :
    fs1 p = fs p := by
  unfold chmodFile at h
  split at h
  · cases h
  · injection h with h1
    rw [← h1]
    exact setFile_frame fs q _ p hp

/-- `os_chown` leaves other paths untouched. -/
theorem os_chown_frame (env : OwnerEnv) (uid gid : Nat) (fs : FS) (q : String)
    (fs1 : FS) (h : os_chown env uid gid fs q = Except.ok fs1)
    (p : String) (hp : p ≠ q) : fs1 p = fs p := by
  unfold os_chown at h
  split at h
  · split at h
    · cases h
    · injection h with h1
      rw [← h1]
      exact setFile_frame fs q _ p hp
  · cases h

/-- `deploy_signature` leaves paths other than source and destination
untouched. -/
theorem deploy_signature_frame (env : OwnerEnv) (fs : FS) (src dst : String)
    (user group : Option String) (fs' : FS)
    (h : deploy_signature env fs src dst user group = Except.ok fs')
    (p : String) (hps : p ≠ src) (hpd : p ≠ dst) : fs' p = fs p := by
  unfold deploy_signature at h
  cases hmv : moveFile fs src dst with
  | error e => rw [hmv] at h; cases h
  | ok fs1 =>
    rw [hmv] at h
    dsimp only at h
    cases hch : chmodFile fs1 dst 0o644 with
    | error e => rw [hch] at h; cases h
    | ok fs2 =>
      rw [hch] at h
      dsimp only at h
      have hf2 : fs2 p = fs p := by
        rw [chmodFile_frame fs1 dst 0o644 fs2 hch p hpd,
          moveFile_frame fs src dst fs1 hmv p hps hpd]
      rcases user with _ | u <;> rcases group with _ | g
      · injection h with h1; rw [← h1]; exact hf2
      · injection h with h1; rw [← h1]; exact hf2
      · injection h with h1; rw [← h1]; exact hf2
      · dsimp only at h
        cases hpw : env.getpwnam u with
        | none =>
          rw [hpw] at h
          dsimp only at h
          injection h with h1
          rw [← h1]
          exact hf2
        | some uid =>
          rw [hpw] at h
          cases hgr : env.getgrnam g with
          | none =>
            rw [hgr] at h
            dsimp only at h
            injection h with h1
            rw [← h1]
            exact hf2
          | some gid =>
            rw [hgr] at h
            dsimp only at h
            cases hoc : os_chown env uid gid fs2 dst with
            | error u2 =>
              rw [hoc] at h
              dsimp only at h
              injection h with h1
              rw [← h1]
              exact hf2
            | ok fs3 =>
              rw [hoc] at h
              dsimp only at h
              injection h with h1
              rw [← h1, os_chown_frame env uid gid fs2 dst fs3 hoc p hpd]
              exact hf2

/-- A cdiff fetch via `download_sig` touches only its working-directory
file. -/
theorem download_sig_frame (opts : Opts) (sig : String) (http : HttpResult)
    (fs fs' : FS) (dl : Bool) (code : Option Nat)
    (h : download_sig opts sig none http fs = Except.ok (fs', dl, code))
    (p : String) (hp : p ≠ pathJoin opts.workdir (sig ++ ".cdiff")) :
    fs' p = fs p := by
  cases http with
  | exn m =>
    rw [download_sig_exn] at h
    cases h
  | response s d =>
    unfold download_sig at h
    dsimp only at h
    split at h
    · injection h with h1
      have ha : setFile fs (pathJoin opts.workdir (sig ++ ".cdiff"))
          { content := d, mode := 0o666, owner := none } = fs' := congrArg Prod.fst h1
      rw [← ha]
      exact setFile_frame fs _ _ p hp
    · injection h with h1
      have ha : fs = fs' := congrArg Prod.fst h1
      rw [← ha]

/-- One pass of `update_diff` touches only the step's working-directory
file and its mirror-directory file. -/
theorem update_diff_loop_frame (env : OwnerEnv) (opts : Opts) (sig : String)
    (http : Nat → HttpResult) :
    ∀ (l : List Nat) (fs fs1 : FS) (evs : List DiffEvent),
      update_diff_loop env opts sig http fs l = Except.ok (fs1, evs) →
      ∀ p, p ≠ pathJoin opts.workdir (sig ++ ".cdiff") →
        p ≠ pathJoin opts.mirrordir (sig ++ ".cdiff") → fs1 p = fs p := by
  intro l
  induction l with
  | nil =>
    intro fs fs1 evs h p hw hm
    unfold update_diff_loop at h
    injection h with h1
    have ha : fs = fs1 := congrArg Prod.fst h1
    rw [← ha]
  | cons i rest ih =>
    intro fs fs1 evs h p hw hm
    unfold update_diff_loop at h
    cases hd : download_sig opts sig none (http i) fs with
    | error e => rw [hd] at h; cases h
    | ok tr =>
      obtain ⟨fsA, dl, code⟩ := tr
      rw [hd] at h
      have hfA : fsA p = fs p :=
        download_sig_frame opts sig (http i) fs fsA dl code hd p hw
      cases dl with
      | false =>
        dsimp only at h
        cases hrec : update_diff_loop env opts sig http fsA rest with
        | error e => rw [hrec] at h; cases h
        | ok pr =>
          obtain ⟨fsB, evs2⟩ := pr
          rw [hrec] at h
          dsimp only at h
          injection h with h1
          have ha : fsB = fs1 := congrArg Prod.fst h1
          rw [← ha, ih fsA fsB evs2 hrec p hw hm, hfA]
      | true =>
        dsimp only at h
        cases hcp : copy_sig env sig opts true fsA with
        | error e => rw [hcp] at h; cases h
        | ok fsB =>
          rw [hcp] at h
          dsimp only at h
          have hfB : fsB p = fsA p :=
            deploy_signature_frame env fsA (pathJoin opts.workdir (sig ++ ".cdiff"))
              (pathJoin opts.mirrordir (sig ++ ".cdiff")) opts.user opts.group fsB hcp
              p hw hm
          cases hrec : update_diff_loop env opts sig http fsB rest with
          | error e => rw [hrec] at h; cases h
          | ok pr =>
            obtain ⟨fsC, evs2⟩ := pr
            rw [hrec] at h
            dsimp only at h
            injection h with h1
            have ha : fsC = fs1 := congrArg Prod.fst h1
            rw [← ha, ih fsB fsC evs2 hrec p hw hm, hfB, hfA]

/-- A whole `update_diff` run for one step touches only that step's two
files. -/
theorem update_diff_frame (env : OwnerEnv) (opts : Opts) (sig : String)
    (http : Nat → HttpResult) (fs fs1 : FS) (evs : List DiffEvent)
    (h : update_diff env opts sig http fs = Except.ok (fs1, evs))
    (p : String) (hw : p ≠ pathJoin opts.workdir (sig ++ ".cdiff"))
    (hm : p ≠ pathJoin opts.mirrordir (sig ++ ".cdiff")) : fs1 p = fs p :=
  update_diff_loop_frame env opts sig http (List.range' 1 5) fs fs1 evs h p hw hm

/-- The attempted steps of `download_diffs_loop` over a duplicate-free step
list are exactly the steps whose cdiff is absent from the initial mirror
state: a step's own downloads and deploys touch only that step's file
names, which differ from every other step's (`diff_name_path_inj`), so the
existence check each later step sees coincides with the initial state. -/
theorem download_diffs_loop_filter (env : OwnerEnv) (opts : Opts)
    (sigtype : String) (http : Nat → Nat → HttpResult) :
    ∀ (l : List Nat), l.Nodup → ∀ (fs fs' : FS) (atts : List Nat),
      download_diffs_loop env opts sigtype http fs l = Except.ok (fs', atts) →
      atts = l.filter (fun n => !(fs (diffPath opts sigtype n)).isSome) := by
  intro l
  induction l with
  | nil =>
    intro _ fs fs' atts h
    unfold download_diffs_loop at h
    injection h with h1
    have ha : ([] : List Nat) = atts := congrArg Prod.snd h1
    rw [← ha]
    rfl
  | cons num rest ih =>
    intro hnd fs fs' atts h
    have hnum : num ∉ rest := (List.nodup_cons.mp hnd).1
    have hndr : rest.Nodup := (List.nodup_cons.mp hnd).2
    unfold download_diffs_loop at h
    by_cases hex : (fs (diffPath opts sigtype num)).isSome
    · rw [if_pos hex] at h
      rw [ih hndr fs fs' atts h]
      have hb : (!(fs (diffPath opts sigtype num)).isSome) = false := by
        simp [hex]
      simp only [List.filter_cons, hb]
      rfl
    · rw [if_neg hex] at h
      cases hud : update_diff env opts (sigtype ++ "-" ++ Nat.repr num) (http num) fs with
      | error e => rw [hud] at h; cases h
      | ok pA =>
        obtain ⟨fs1, evs⟩ := pA
        rw [hud] at h
        dsimp only at h
        cases hrec : download_diffs_loop env opts sigtype http fs1 rest with
        | error e => rw [hrec] at h; cases h
        | ok pr =>
          obtain ⟨fs2, atts2⟩ := pr
          rw [hrec] at h
          dsimp only at h
          injection h with h1
          have hat : num :: atts2 = atts := congrArg Prod.snd h1
          have h2 := ih hndr fs1 fs2 atts2 hrec
          have hpred : ∀ x ∈ rest,
              (!(fs1 (diffPath opts sigtype x)).isSome) =
              (!(fs (diffPath opts sigtype x)).isSome) := by
            intro x hx
            have hxnum : x ≠ num := fun hcon => hnum (hcon ▸ hx)
            rw [update_diff_frame env opts (sigtype ++ "-" ++ Nat.repr num) (http num)
              fs fs1 evs hud (diffPath opts sigtype x)
              (diff_name_path_inj opts.mirrordir opts.workdir sigtype x num hxnum)
              (diff_name_path_inj opts.mirrordir opts.mirrordir sigtype x num hxnum)]
          rw [← hat, h2, List.filter_congr hpred]
          have hb : (!(fs (diffPath opts sigtype num)).isSome) = true := by
            simp [hex]
          simp only [List.filter_cons, hb]
          rfl

/-! Claim theorems. -/

/-- C1: the claim says a successfully fetched full bundle is verified
(`isValid` and version re-check) before any deploy and that a failing
check prevents the deploy, never overwriting an existing valid mirror
artifact. The code contradicts this: `update_sig` deploys every 200-fetched
bundle without ever invoking `check_download`/`verify_sigfile`. Here the
mirror holds a valid version-100 daily bundle, the remote version is 101
and the fetched body is corrupt: `check_download` would reject it (it is
invalid and its inspected version is absent), yet `update_sig` deploys it
and overwrites the existing valid mirror artifact with the corrupt data. -/
theorem update_sig_deploys_unverified_artifact :
    check_download (some 101) false none =
      Except.error "ValueError: Failed to verify signature" ∧
    fs0C1 "m/daily.cvd" =
      some { content := "valid-bundle-100", mode := 0o644, owner := none } ∧
    (update_sig_item envW optsW "daily" (some 100) 101
        (HttpResult.response 200 "corrupt") fs0C1).map
      (fun r => (r.2, r.1 "m/daily.cvd", r.1 "w/daily.cvd")) =
    Except.ok (SigOutcome.deployed,
      some { content := "corrupt", mode := 0o644, owner := none }, none) :=
  ⟨rfl, rfl, rfl⟩

/-- C2: the claim says a diff step's download stops early — a 404 is
terminal and a success deploys exactly once with no further attempts. The
loop of `update_diff` has no `break`, so it always runs its full five
iterations: five downloads are attempted even when every attempt returns
404, and a run whose every fetch succeeds downloads and deploys the same
diff five times. Each list entry is one download attempt. -/
theorem update_diff_ignores_outcome_five_attempts :
    (update_diff envW optsW "daily-19" (fun _ => HttpResult.response 404 "") fsEmpty).map
      (fun r => r.2) = Except.ok (List.replicate 5 DiffEvent.notFound) ∧
    (update_diff envW optsW "daily-19" (fun _ => HttpResult.response 200 "diffdata") fsEmpty).map
      (fun r => (r.2, r.1 "m/daily-19.cdiff", r.1 "w/daily-19.cdiff")) =
    Except.ok (List.replicate 5 DiffEvent.deployed,
      some { content := "diffdata", mode := 0o644, owner := none }, none) :=
  ⟨rfl, rfl⟩

/-- C4: a non-200 status indeed yields a failure result paired with that
status and the fetcher performs no retries (it issues exactly the one
request it is given), but a transport-level exception does not yield a
failure result with an absent code: `download_sig` logs the exception and
then dereferences the never-assigned response variable, raising an
`UnboundLocalError` that propagates to the caller. -/
theorem download_sig_failure_classification :
    (∀ (opts : Opts) (sig : String) (version : Option Nat) (s : Nat) (d : String) (fs : FS),
      s ≠ 200 →
      download_sig opts sig version (HttpResult.response s d) fs =
        Except.ok (fs, false, some s)) ∧
    (∀ (opts : Opts) (sig : String) (version : Option Nat) (m : String) (fs : FS),
      download_sig opts sig version (HttpResult.exn m) fs =
        Except.error unboundLocalMsg) :=
  ⟨download_sig_ne200, download_sig_exn⟩

/-- Witness for C4 at concrete inputs: a 503 response and a connect
timeout. -/
theorem download_sig_failure_classification_witness :
    download_sig optsW "daily" (some 101) (HttpResult.response 503 "oops") fsEmpty =
      Except.ok (fsEmpty, false, some 503) ∧
    download_sig optsW "daily" (some 101) (HttpResult.exn "ConnectTimeout") fsEmpty =
      Except.error unboundLocalMsg :=
  ⟨download_sig_failure_classification.1 optsW "daily" (some 101) 503 "oops" fsEmpty
      (by decide),
   download_sig_failure_classification.2 optsW "daily" (some 101) "ConnectTimeout" fsEmpty⟩

/-- C3 counterexample: with local version 18 and remote version 20 (and an
empty mirror, all fetches failing so attempts are observable), the code
attempts the steps 18, 19 and 20 — the range starts at the local version
itself, not at local+1 as the claim states. -/
theorem download_diffs_range_counterexample :
    (download_diffs_item envW optsW "daily" (fun _ _ => HttpResult.response 404 "")
        18 20 fsEmpty).map (fun r => r.2) = Except.ok [18, 19, 20] ∧
    ([18, 19, 20] : List Nat) ≠ [19, 20] :=
  ⟨rfl, by decide⟩

/-- C3 amended: for every diff-capable stream with local version L and
remote version R, the diff-chain pipeline attempts diff downloads exactly
for the integer steps in the range [L, R] inclusive (starting at the local
version itself), skipping any step whose target cdiff file already exists
in the mirror directory when the step is reached — which, because a step's
downloads and deploys touch only that step's own file names, is exactly
the set of steps of [L, R] whose cdiff is absent from the mirror state the
item starts from. Proven for every fetch behaviour (successes, 404s and
other failures alike); an uncaught transport exception aborts the item and
is the excluded `Except.error` case. -/
theorem download_diffs_attempts_range :
    ∀ (env : OwnerEnv) (opts : Opts) (sigtype : String)
      (http : Nat → Nat → HttpResult) (localver remotever : Nat)
      (fs fs' : FS) (atts : List Nat),
      download_diffs_item env opts sigtype http localver remotever fs =
        Except.ok (fs', atts) →
      atts = (List.range' localver (remotever + 1 - localver)).filter
        (fun n => !(fs (diffPath opts sigtype n)).isSome) := by
  intro env opts sigtype http localver remotever fs fs' atts h
  exact download_diffs_loop_filter env opts sigtype http
    (List.range' localver (remotever + 1 - localver))
    (List.nodup_range' localver (remotever + 1 - localver)) fs fs' atts h

/-- Witness for C3 amended: local 5, remote 7, the step-6 cdiff already in
the mirror and every fetch succeeding — exactly steps 5 and 7 are
attempted (and deployed), step 6 is skipped. -/
theorem download_diffs_attempts_range_witness :
    (download_diffs_item envW optsW "daily" (fun _ _ => HttpResult.response 200 "dd")
        5 7 fsDiffW).map (fun r => r.2) = Except.ok [5, 7] := by
  have hok : (download_diffs_item envW optsW "daily"
      (fun _ _ => HttpResult.response 200 "dd") 5 7 fsDiffW).toOption.isSome = true := rfl
  cases hres : download_diffs_item envW optsW "daily"
      (fun _ _ => HttpResult.response 200 "dd") 5 7 fsDiffW with
  | error e =>
    rw [hres] at hok
    simp [Except.toOption] at hok
  | ok pr =>
    obtain ⟨fs2, atts⟩ := pr
    have h := download_diffs_attempts_range envW optsW "daily"
      (fun _ _ => HttpResult.response 200 "dd") 5 7 fsDiffW fs2 atts hres
    have hfil : (List.range' 5 (7 + 1 - 5)).filter
        (fun n => !(fsDiffW (diffPath optsW "daily" n)).isSome) = [5, 7] := by decide
    rw [hfil] at h
    simp only [Except.map, h]

/-- C5 counterexample: stream `daily` with local version equal to remote
version 20 and no `daily-20.cdiff` in the mirror — the diff pipeline
nevertheless attempts step 20, downloads it and deploys it into the
mirror, so a download and a deploy occur although local ≥ remote. -/
theorem diff_pipeline_downloads_at_equal_versions :
    (download_diffs_item envW optsW "daily" (fun _ _ => HttpResult.response 200 "dd")
        20 20 fsEmpty).map (fun r => (r.2, r.1 "m/daily-20.cdiff")) =
    Except.ok ([20], some { content := "dd", mode := 0o644, owner := none }) :=
  rfl

/-- C5 amended: the full-bundle pipeline performs no download or deploy
when local ≥ remote; the diff pipeline performs none when local > remote,
and when local = remote it attempts nothing provided the cdiff for that
shared version is already present in the mirror (otherwise it still
attempts that single step) — so a repeated run against an unchanged
upstream is a no-op once the current version's cdiff is present, as it is
after a previous diff-pipeline pass. -/
theorem no_work_when_local_ge_remote :
    (∀ (env : OwnerEnv) (opts : Opts) (sign : String) (l r : Nat)
        (http : HttpResult) (fs : FS), r ≤ l →
      update_sig_item env opts sign (some l) r http fs =
        Except.ok (fs, SigOutcome.upToDate)) ∧
    (∀ (env : OwnerEnv) (opts : Opts) (sigtype : String)
        (http : Nat → Nat → HttpResult) (l r : Nat) (fs : FS), r < l →
      download_diffs_item env opts sigtype http l r fs = Except.ok (fs, [])) ∧
    (∀ (env : OwnerEnv) (opts : Opts) (sigtype : String)
        (http : Nat → Nat → HttpResult) (l : Nat) (fs : FS),
      (fs (diffPath opts sigtype l)).isSome = true →
      download_diffs_item env opts sigtype http l l fs = Except.ok (fs, [])) := by
  refine ⟨?_, ?_, ?_⟩
  · intro env opts sign l r http fs h
    unfold update_sig_item
    have hn : sigNeedsUpdate (some l) r = false := by
      simp [sigNeedsUpdate]
      omega
    rw [hn]
    rfl
  · intro env opts sigtype http l r fs h
    unfold download_diffs_item
    have h0 : r + 1 - l = 0 := by omega
    rw [h0]
    rfl
  · intro env opts sigtype http l fs h
    unfold download_diffs_item
    have h1 : l + 1 - l = 1 := by omega
    rw [h1]
    have h2 : List.range' l 1 = [l] := by simp
    rw [h2]
    unfold download_diffs_loop
    simp [h]
    rfl

/-- Witness for C5 amended: local 5 remote 5 for the bundle pipeline,
local 7 remote 5 for the diff pipeline, and local = remote = 6 with the
step-6 cdiff already mirrored. -/
theorem no_work_when_local_ge_remote_witness :
    update_sig_item envW optsW "daily" (some 5) 5 (HttpResult.response 200 "x") fsEmpty =
      Except.ok (fsEmpty, SigOutcome.upToDate) ∧
    download_diffs_item envW optsW "daily" (fun _ _ => HttpResult.response 200 "x")
        7 5 fsEmpty = Except.ok (fsEmpty, []) ∧
    download_diffs_item envW optsW "daily" (fun _ _ => HttpResult.response 200 "x")
        6 6 fsDiffW = Except.ok (fsDiffW, []) :=
  ⟨no_work_when_local_ge_remote.1 envW optsW "daily" 5 5 (HttpResult.response 200 "x")
      fsEmpty (by decide),
   no_work_when_local_ge_remote.2.1 envW optsW "daily"
      (fun _ _ => HttpResult.response 200 "x") 7 5 fsEmpty (by decide),
   no_work_when_local_ge_remote.2.2 envW optsW "daily"
      (fun _ _ => HttpResult.response 200 "x") 6 fsDiffW rfl⟩

/-- C6: the `dns.txt` marker is rewritten if and only if the MD5 of its
existing content (the empty string when the file is absent, exactly as
`get_file_md5` returns) differs from the MD5 of the newly fetched record;
and running the manifest writer a second time with the identical record
performs no second write. Stated for every hash function in the role of
`hashlib.md5`, which is external to the repository. -/
theorem create_dns_file_write_iff_hash_differs :
    (∀ (md5 : String → String) (file : Option String) (record : String),
      (create_dns_file md5 file record).wrote = true ↔
        get_file_md5 md5 file ≠ get_md5 md5 record) ∧
    (∀ (md5 : String → String) (file : Option String) (record : String),
      (create_dns_file md5 (create_dns_file md5 file record).file record).wrote = false) := by
  constructor
  · intro md5 file record
    by_cases h : get_file_md5 md5 file = get_md5 md5 record <;>
      simp [create_dns_file, h]
  · intro md5 file record
    by_cases h : get_file_md5 md5 file = get_md5 md5 record
    · simp [create_dns_file, h]
    · have hfile : (create_dns_file md5 file record).file = some record := by
        simp [create_dns_file, h]
      rw [hfile]
      simp [create_dns_file, get_file_md5, get_md5]

/-- C7: version resolution queries the TXT record at most 4 times; when
every attempt returns empty, each of the four queries is followed by a
5-second sleep and the run then calls `sys.exit(3)` without starting any
worker — and 3 is distinct from both the success code 0 and the
lock-contention code 254. -/
theorem get_record_bounded_retries_exit3 :
    (∀ q, countQueries (work_start q).1 ≤ 4) ∧
    (∀ q, (∀ p, get_txt_record (q p) = Except.ok "") →
      work_start q =
        ([RunEvent.queryTxt 1, RunEvent.sleepSecs 5, RunEvent.queryTxt 2,
          RunEvent.sleepSecs 5, RunEvent.queryTxt 3, RunEvent.sleepSecs 5,
          RunEvent.queryTxt 4, RunEvent.sleepSecs 5, RunEvent.exitProc 3],
         WorkOutcome.exited 3)) ∧
    resolutionFailExitCode ≠ successExitCode ∧
    resolutionFailExitCode ≠ lockContentionExitCode := by
  refine ⟨?_, ?_, by decide, by decide⟩
  · intro q
    have hloop := countQueries_get_record_loop q (List.range' 1 4)
    have hlen : (List.range' 1 4).length = 4 := rfl
    rw [hlen] at hloop
    unfold work_start
    rcases hres : get_record q with ⟨evs, out⟩
    have hevs : (get_record_loop q (List.range' 1 4)).1 = evs := by
      rw [show get_record_loop q (List.range' 1 4) = get_record q from rfl, hres]
    rw [hevs] at hloop
    cases out with
    | exited c => exact hloop
    | raised e => exact hloop
    | found record =>
      dsimp only
      cases hp : parse_record record with
      | none => exact hloop
      | some v =>
        dsimp only
        simp only [countQueries, List.countP_append] at hloop ⊢
        have hw1 : List.countP
            (fun e => match e with | RunEvent.queryTxt _ => true | _ => false)
            ((List.range dqueueWorkers).map (fun i => RunEvent.startDiffWorker (i + 1))) = 0 := rfl
        have hw2 : List.countP
            (fun e => match e with | RunEvent.queryTxt _ => true | _ => false)
            ((List.range mqueueWorkers).map (fun i => RunEvent.startSigWorker (i + 1))) = 0 := rfl
        rw [hw1, hw2]
        omega
  · intro q hq
    have e1 := hq 1
    have e2 := hq 2
    have e3 := hq 3
    have e4 := hq 4
    unfold work_start get_record
    have h4 : List.range' 1 4 = [1, 2, 3, 4] := rfl
    rw [h4]
    unfold get_record_loop
    rw [e1]
    dsimp only
    unfold get_record_loop
    rw [e2]
    dsimp only
    unfold get_record_loop
    rw [e3]
    dsimp only
    unfold get_record_loop
    rw [e4]
    dsimp only
    rfl

/-- Witness for C7: a resolver that answers `NXDOMAIN` on every pass. -/
theorem get_record_bounded_retries_exit3_witness :
    work_start (fun _ => DnsOutcome.nxdomain) =
      ([RunEvent.queryTxt 1, RunEvent.sleepSecs 5, RunEvent.queryTxt 2,
        RunEvent.sleepSecs 5, RunEvent.queryTxt 3, RunEvent.sleepSecs 5,
        RunEvent.queryTxt 4, RunEvent.sleepSecs 5, RunEvent.exitProc 3],
       WorkOutcome.exited 3) :=
  get_record_bounded_retries_exit3.2.1 (fun _ => DnsOutcome.nxdomain) (fun _ => rfl)

/-- C8: the record unpack succeeds exactly on 8 colon-separated fields,
extracting fields 2, 3, 7 and 8 (1-indexed) as the main, daily,
safebrowsing and bytecode versions; on any other field count the run
aborts with an uncaught `ValueError` instead of defaulting fields. -/
theorem parse_record_eight_fields :
    (∀ record, (parse_record record).isSome ↔ (splitColon record).length = 8) ∧
    (∀ record f1 f2 f3 f4 f5 f6 f7 f8,
      splitColon record = [f1, f2, f3, f4, f5, f6, f7, f8] →
      parse_record record = some (f2, f3, f7, f8)) ∧
    (∀ q record, q 1 = DnsOutcome.answers [record] → record ≠ "" →
      parse_record record = none →
      (work_start q).2 = WorkOutcome.raised "ValueError: unpack mismatch") := by
  refine ⟨fun record => parse_fields_isSome (splitColon record), ?_, ?_⟩
  · intro record f1 f2 f3 f4 f5 f6 f7 f8 hs
    unfold parse_record
    rw [hs]
    rfl
  · intro q record hq hr hp
    unfold work_start get_record
    have h4 : List.range' 1 4 = [1, 2, 3, 4] := rfl
    rw [h4]
    unfold get_record_loop
    rw [hq]
    dsimp only [get_txt_record]
    rw [if_neg hr]
    dsimp only
    rw [hp]

/-- Witness for C8 on the spec's scenario-A record. -/
theorem parse_record_eight_fields_witness :
    parse_record "X:10:20:Y:Z:W:5:3" = some ("10", "20", "5", "3") :=
  parse_record_eight_fields.2.1 "X:10:20:Y:Z:W:5:3" "X" "10" "20" "Y" "Z" "W" "5" "3" rfl

/-- C9: deployment moves the file — afterwards the source path no longer
exists and the destination holds the source's content — sets the
destination mode to `0o644`, and succeeds for every ownership environment:
whether or not the user and group resolve or the chown is permitted, the
deploy returns successfully with the same content and mode. -/
theorem deploy_signature_moves_chmods_swallows_chown
    (env : OwnerEnv) (fs : FS) (src dst : String) (user group : Option String)
    (fd : FileData) (hne : src ≠ dst) (hsrc : fs src = some fd) :
    (deploy_signature env fs src dst user group).map
      (fun f => (f src, (f dst).map (fun d => (d.content, d.mode)))) =
    Except.ok (none, some (fd.content, 0o644)) := by
  have h1 : moveFile fs src dst = Except.ok
      (fun p => if p = dst then some fd else if p = src then none else fs p) := by
    unfold moveFile
    rw [hsrc]
  set fs1 : FS := fun p => if p = dst then some fd else if p = src then none else fs p
    with hfs1
  have hfs1dst : fs1 dst = some fd := by simp [hfs1]
  have hfs1src : fs1 src = none := by simp [hfs1, hne]
  have h2 : chmodFile fs1 dst 0o644 =
      Except.ok (setFile fs1 dst { fd with mode := 0o644 }) := by
    unfold chmodFile
    rw [hfs1dst]
  set fs2 : FS := setFile fs1 dst { fd with mode := 0o644 } with hfs2
  have hfs2dst : fs2 dst = some { fd with mode := 0o644 } := by
    simp [hfs2, setFile]
  have hfs2src : fs2 src = none := by
    simp [hfs2, setFile, hne, hfs1src]
  unfold deploy_signature
  rw [h1]
  dsimp only
  rw [h2]
  dsimp only
  rcases user with _ | u <;> rcases group with _ | g
  · simp [Except.map, hfs2src, hfs2dst]
  · simp [Except.map, hfs2src, hfs2dst]
  · simp [Except.map, hfs2src, hfs2dst]
  · cases hpw : env.getpwnam u with
    | none => simp [hpw, Except.map, hfs2src, hfs2dst]
    | some uid =>
      cases hgr : env.getgrnam g with
      | none => simp [hpw, hgr, Except.map, hfs2src, hfs2dst]
      | some gid =>
        unfold os_chown
        cases hperm : env.chownPermitted with
        | false => simp [hpw, hgr, hperm, Except.map, hfs2src, hfs2dst]
        | true =>
          simp only [hpw, hgr, hperm, if_true, hfs2dst]
          simp [setFile, Except.map, hne, hfs2src, hfs2dst]

/-- Witness for C9: deployment succeeds, moves and chmods even though
user/group resolution fails (`KeyError` swallowed). -/
theorem deploy_signature_moves_witness :
    (deploy_signature envW fs0C1 "m/daily.cvd" "m/daily-copy.cvd"
        (some "nginx") (some "nginx")).map
      (fun f => (f "m/daily.cvd", (f "m/daily-copy.cvd").map (fun d => (d.content, d.mode)))) =
    Except.ok (none, some ("valid-bundle-100", 0o644)) :=
  deploy_signature_moves_chmods_swallows_chown envW fs0C1 "m/daily.cvd" "m/daily-copy.cvd"
    (some "nginx") (some "nginx") { content := "valid-bundle-100", mode := 0o644, owner := none }
    (by decide) rfl

/-- C10: only an empty answer set (`IndexError`) and `NXDOMAIN` are turned
into the retryable empty string; every other resolver error propagates as
an uncaught exception, and when one occurs the run aborts at that query
without using the remaining retry budget, without calling `sys.exit(3)`
and without starting any worker. -/
theorem get_txt_record_error_taxonomy :
    get_txt_record (DnsOutcome.answers []) = Except.ok "" ∧
    get_txt_record DnsOutcome.nxdomain = Except.ok "" ∧
    (∀ e, get_txt_record (DnsOutcome.failure e) = Except.error e) ∧
    (∀ q e, get_txt_record (q 1) = Except.ok "" → q 2 = DnsOutcome.failure e →
      work_start q =
        ([RunEvent.queryTxt 1, RunEvent.sleepSecs 5, RunEvent.queryTxt 2],
         WorkOutcome.raised e)) := by
  refine ⟨rfl, rfl, fun e => rfl, ?_⟩
  intro q e hq1 hq2
  unfold work_start get_record
  have h4 : List.range' 1 4 = [1, 2, 3, 4] := rfl
  rw [h4]
  unfold get_record_loop
  rw [hq1]
  dsimp only
  unfold get_record_loop
  rw [hq2]
  rfl

/-- Witness for C10: the first pass returns an empty answer set, the
second raises a resolver timeout. -/
theorem get_txt_record_error_taxonomy_witness :
    work_start (fun p => if p = 1 then DnsOutcome.answers [] else DnsOutcome.failure "Timeout") =
      ([RunEvent.queryTxt 1, RunEvent.sleepSecs 5, RunEvent.queryTxt 2],
       WorkOutcome.raised "Timeout") :=
  get_txt_record_error_taxonomy.2.2.2
    (fun p => if p = 1 then DnsOutcome.answers [] else DnsOutcome.failure "Timeout")
    "Timeout" rfl rfl

end ClamavMirror
